import Mathlib

/-!
Shallow embedding of the core password toolkit of this repository
(`PasswordSecurityApp.js`): the reference data tables, the heuristic
classifier, the entropy calculator, the composite scorer, the crack-time
estimator, the time formatter and the password generator.

Modelling conventions:
* A password / word is a `List Char`; the static word tables keep their
  source names and are `List String`.
* JavaScript numbers are modelled by `ℚ`.  Every arithmetic operation the
  scorer performs on scores is exact on the doubles involved (integers,
  quarters, tenths), so `ℚ` is a faithful model of the computation.
* The raw entropy value `log2(charset ^ length)` with its multiplicative
  penalty factors is always of the form `coef * log2 cs` with `coef : ℚ`
  and `cs : ℕ`; we represent it by the pair `(coef, cs)` and decide the
  threshold comparisons the code performs on it exactly (`qlogGT`).
* `Math.random()` is modelled by an arbitrary stream `rand : ℕ → ℕ`; the
  k-th call `Math.floor(Math.random() * n)` becomes `rand k % n`, which
  ranges over exactly the same values `0 .. n-1`.
* `Math.round x` (round half towards +∞) is `⌊x + 1/2⌋`.
-/

/-! ## Basic character classes and small helpers -/

/-- JS regex `[^a-zA-Z0-9]` (any character that is not an ASCII letter or
digit counts as a "symbol"). -/
def isSym (c : Char) : Bool := !c.isAlphanum

def anyLower (l : List Char) : Bool := l.any Char.isLower
def anyUpper (l : List Char) : Bool := l.any Char.isUpper
def anyDigit (l : List Char) : Bool := l.any Char.isDigit
def anySymbol (l : List Char) : Bool := l.any isSym

/-- `pwd.toLowerCase()` (ASCII; the word tables are all ASCII). -/
def lowerL (l : List Char) : List Char := l.map Char.toLower

def strOf (l : List Char) : String := String.mk l

/-- JS `String.prototype.includes`: `pat` occurs as a contiguous substring. -/
def hasSub (pat : List Char) : List Char → Bool
  | [] => pat.isEmpty
  | c :: rest => pat.isPrefixOf (c :: rest) || hasSub pat rest

/-- JS `Math.round`: round half towards +∞. -/
def jsRound (q : ℚ) : ℤ := (q + 1/2).floor

/-- Run-length encoding: maximal runs of equal adjacent characters, in
order.  Used to model the regexes `/(.)\1+/g` and `/(.)\1{2,}/g`. -/
def rle : List Char → List (ℕ × Char)
  | [] => []
  | c :: rest =>
    match rle rest with
    | [] => [(1, c)]
    | (n, d) :: t => if c = d then (n + 1, d) :: t else (1, c) :: (n, d) :: t

/-- Total length of all maximal runs of length ≥ 2 (`pwd.match(/(.)\1+/g)`
summed). -/
def repeatTotal (l : List Char) : ℕ :=
  (((rle l).filter (fun p => 2 ≤ p.1)).map Prod.fst).sum

/-- The first maximal run of length ≥ 3 (`pwd.match(/(.)\1{2,}/g)` is a
list of the maximal runs of length ≥ 3, in order; `[0]` is the first). -/
def firstRun3 (l : List Char) : Option (ℕ × Char) :=
  ((rle l).filter (fun p => 3 ≤ p.1)).head?

/-- `^[a-zA-Z]+[0-9]+$` (JS `/^[a-z]+[0-9]+$/i`): one or more letters
followed by one or more digits. -/
def lettersThenDigits (l : List Char) : Bool :=
  let a := l.takeWhile Char.isAlpha
  let b := l.drop a.length
  !a.isEmpty && !b.isEmpty && b.all Char.isDigit

/-- Letter part / digit part split of `/^([a-z]{3,})([0-9]+)$/i`. -/
def wordNumberMatch (l : List Char) : Option (List Char × List Char) :=
  let a := l.takeWhile Char.isAlpha
  let b := l.drop a.length
  if 3 ≤ a.length && !b.isEmpty && b.all Char.isDigit then some (a, b) else none

/-- `pwd.replace(/\d+$/, '')`: strip the trailing run of digits. -/
def stripTrailingDigits (l : List Char) : List Char :=
  (l.reverse.dropWhile Char.isDigit).reverse

/-- `/^[a-z]+[\W_]+[0-9]+$/i`: letters, then non-alphanumerics, then digits. -/
def wordSymNumber (l : List Char) : Bool :=
  let a := l.takeWhile Char.isAlpha
  let r := l.drop a.length
  let b := r.takeWhile isSym
  let c := r.drop b.length
  !a.isEmpty && !b.isEmpty && !c.isEmpty && c.all Char.isDigit

/-- `/^[A-Z][a-z]+\d+[\W_]+$/`: capital, lowercase letters, digits, symbols. -/
def capitalFormula (l : List Char) : Bool :=
  match l with
  | [] => false
  | u :: rest =>
    let a := rest.takeWhile Char.isLower
    let r := rest.drop a.length
    let b := r.takeWhile Char.isDigit
    let c := r.drop b.length
    u.isUpper && !a.isEmpty && !b.isEmpty && !c.isEmpty && c.all isSym

/-- A sequence of character classes matched at the head of the list
(one class per consumed character). -/
def matchClasses : List (Char → Bool) → List Char → Bool
  | [], _ => true
  | _ :: _, [] => false
  | p :: ps, c :: cs => p c && matchClasses ps cs

/-- A sequence of character classes matched anywhere in the list
(unanchored regex search). -/
def containsClasses (ps : List (Char → Bool)) : List Char → Bool
  | [] => matchClasses ps []
  | c :: cs => matchClasses ps (c :: cs) || containsClasses ps cs

def inSet (s : String) (c : Char) : Bool := s.toList.contains c

/-! ## Reference data (verbatim from the source) -/

def COMMON_PREFIXES : List String :=
  ["admin", "user", "test", "password", "pass", "welcome", "abc", "qwerty",
   "letme", "hello", "temp", "demo", "login", "secure", "dev", "guest", "acc"]

def COMMON_SUFFIXES : List String :=
  ["123", "1234", "12345", "123456", "2023", "2024", "2022", "2021", "!",
   "!!", "@", "#", "1", "01", "0"]

def COMMON_WORDS_CATEGORIES : List (String × List String) :=
  [("food",
    ["pizza", "burger", "pasta", "sushi", "nasi", "rice", "bread", "cheese",
     "nasigoreng", "nasikuning", "chocolate", "cookie", "cake", "coffee",
     "tea", "banana", "apple", "orange", "chicken", "beef", "fish", "candy",
     "sugar", "salt", "cream", "milk", "water", "juice", "soda", "wine",
     "beer"]),
   ("animals",
    ["cat", "dog", "lion", "tiger", "bear", "monkey", "horse", "bird",
     "fish", "dragon", "eagle", "wolf", "fox", "rabbit", "mouse", "rat",
     "deer", "cow", "goat", "sheep", "pig", "duck", "chicken", "snake",
     "lizard", "turtle", "elephant", "panda", "koala", "dolphin", "whale",
     "shark", "zebra", "giraffe", "frog"]),
   ("colors",
    ["red", "blue", "green", "black", "white", "orange", "purple", "yellow",
     "pink", "brown", "gold", "silver", "gray", "violet", "indigo",
     "magenta", "cyan", "teal", "maroon", "navy", "lime", "olive", "aqua",
     "coral"]),
   ("sports",
    ["soccer", "football", "basketball", "tennis", "golf", "hockey",
     "baseball", "rugby", "cricket", "volleyball", "badminton", "swimming",
     "boxing", "racing", "running", "cycling", "skating", "skiing",
     "surfing", "bowling", "billiards", "archery", "fishing", "hunting",
     "karate", "judo", "taekwondo"]),
   ("tech",
    ["computer", "laptop", "windows", "apple", "android", "github", "code",
     "tech", "cyber", "crypto", "bitcoin", "google", "microsoft",
     "facebook", "twitter", "instagram", "youtube", "tiktok", "snapchat",
     "linkedin", "wifi", "internet", "router", "server", "cloud", "linux",
     "ubuntu", "python", "java", "javascript", "html", "css", "php", "ruby",
     "swift", "data", "cyber", "hack", "secure", "virus", "trojan"]),
   ("emotions",
    ["happy", "love", "smile", "cool", "angry", "sad", "peace", "hope",
     "dream", "joy", "excited", "calm", "relax", "stress", "worry", "fear",
     "brave", "proud", "shame", "guilt", "trust", "doubt", "surprise",
     "disgust", "pleasure", "pain", "faith", "believe"]),
   ("names",
    ["john", "mike", "david", "james", "alex", "sarah", "emma", "lisa",
     "anna", "maria", "chris", "robert", "michael", "william", "mary",
     "patricia", "linda", "barbara", "elizabeth", "jennifer", "susan",
     "jessica", "thomas", "charles", "daniel", "matthew", "mark", "donald",
     "steven", "paul", "andrew", "josh", "george", "kevin"]),
   ("places",
    ["paris", "london", "tokyo", "berlin", "rome", "madrid", "moscow",
     "dubai", "sydney", "beijing", "newyork", "chicago", "boston",
     "seattle", "atlanta", "miami", "vegas", "texas", "canada", "mexico",
     "brazil", "india", "china", "japan", "korea", "egypt", "africa",
     "europe", "asia", "america"]),
   ("months",
    ["january", "february", "march", "april", "may", "june", "july",
     "august", "september", "october", "november", "december", "jan",
     "feb", "mar", "apr", "jun", "jul", "aug", "sep", "oct", "nov", "dec"]),
   ("days",
    ["monday", "tuesday", "wednesday", "thursday", "friday", "saturday",
     "sunday", "mon", "tue", "wed", "thu", "fri", "sat", "sun"])]

def OTHER_COMMON_WORDS : List String :=
  ["password", "secret", "private", "letme", "hello", "please", "money",
   "summer", "winter", "spring", "autumn", "monday", "tuesday", "wednesday",
   "thursday", "friday", "saturday", "sunday", "company", "business",
   "office", "house", "garden", "school", "college", "friend", "family",
   "welcome", "thank", "sorry", "great", "awesome", "super", "nice", "home",
   "work", "play", "simple", "easy", "hard", "strong", "weak", "big",
   "small", "first", "last", "best", "one", "two", "three", "four", "five",
   "six", "seven", "eight", "nine", "ten"]

/-- `Object.values(COMMON_WORDS_CATEGORIES).flat()` (insertion order). -/
def ALL_COMMON_WORDS : List String :=
  (COMMON_WORDS_CATEGORIES.map Prod.snd).flatten

def commonPasswords : List String :=
  ["123456", "password", "123456789", "12345678", "12345", "1234567",
   "password123", "admin", "welcome", "qwerty", "abc123", "Password1",
   "letmein", "monkey", "dragon", "sunshine", "princess", "football",
   "charlie", "shadow", "master", "jordan", "superman", "harley",
   "qwerty123", "password1", "admin123", "test123", "common123"]

def keyboardPatterns : List String :=
  ["qwerty", "asdf", "zxcv", "1234", "abcd", "qwer", "asdfgh", "123456",
   "qwertyuiop", "asdfghjkl", "zxcvbnm", "098765"]

/-! ## Heuristic classifier: `isCommonWord` -/

/-- The value `isCommonWord` returns: JS `true`, `false`, or a numeric
confidence (`0.7` / `0.4`).  The scorer consumes it with
`=== true` / `> 0` tests, so it must stay a tagged union. -/
inductive CommonRes where
  | yes : CommonRes
  | no : CommonRes
  | graded : ℚ → CommonRes
deriving DecidableEq

/-- The three "definitely common" table checks of `isCommonWord`, on the
lowercased word: an exact hit in a dictionary category, a known common
starting fragment, or an exact hit in the other-common-words list. -/
def inCommonTables (lw : List Char) : Bool :=
  COMMON_WORDS_CATEGORIES.any (fun cat => cat.2.any (fun w => w.toList == lw))
  || COMMON_PREFIXES.any (fun p => p.toList.isPrefixOf lw)
  || OTHER_COMMON_WORDS.any (fun w => w.toList == lw)

/-- `isCommonWord(word)` from the source: `false` for words shorter than 3
characters, `true` on a table hit (the source's three adjacent
`return true` checks, combined in order in `inCommonTables`), then
length-based confidences. -/
def isCommonWord (word : List Char) : CommonRes :=
  if word.length < 3 then .no
  else
    let lw := lowerL word
    if inCommonTables lw then .yes
    else if lw.length ≤ 5 then .graded (7/10)
    else if 8 ≤ lw.length then .no
    else .graded (2/5)

/-! ## Checking the classifier against the spec (C4) -/

/-- C4: `isCommonWord` returns `false` below 3 characters; `true` exactly
on the dictionary/fragment/other-words hits; and for unmatched words
confidence 0.7 at length ≤ 5, `false` at length ≥ 8, 0.4 at length 6-7. -/
theorem claim_C4 (w : List Char) :
    (w.length < 3 → isCommonWord w = .no) ∧
    (3 ≤ w.length → inCommonTables (lowerL w) = true → isCommonWord w = .yes) ∧
    (3 ≤ w.length → w.length ≤ 5 → inCommonTables (lowerL w) = false →
      isCommonWord w = .graded (7/10)) ∧
    (8 ≤ w.length → inCommonTables (lowerL w) = false → isCommonWord w = .no) ∧
    (6 ≤ w.length → w.length ≤ 7 → inCommonTables (lowerL w) = false →
      isCommonWord w = .graded (2/5)) := by
  have hl : (lowerL w).length = w.length := List.length_map _ _
  refine ⟨fun h => by simp [isCommonWord, h], fun h3 ht => ?_, fun h3 h5 ht => ?_,
    fun h8 ht => ?_, fun h6 h7 ht => ?_⟩
  · simp [isCommonWord, ht, show ¬ w.length < 3 by omega]
  · simp [isCommonWord, ht, hl, show ¬ w.length < 3 by omega, h5]
  · simp [isCommonWord, ht, hl, show ¬ w.length < 3 by omega,
      show ¬ w.length ≤ 5 by omega, h8]
  · simp [isCommonWord, ht, hl, show ¬ w.length < 3 by omega,
      show ¬ w.length ≤ 5 by omega, show ¬ 8 ≤ w.length by omega]

/-- Witness for C4 at concrete inputs: "pizza" is a dictionary hit,
"zzqzzwk" (length 7, unmatched) gets confidence 0.4. -/
theorem claim_C4_witness :
    isCommonWord "pizza".toList = .yes ∧
    isCommonWord "zzqzzwk".toList = .graded (2/5) :=
  ⟨(claim_C4 _).2.1 (by decide) (by decide),
   (claim_C4 _).2.2.2.2 (by decide) (by decide) (by decide)⟩

/-! ## Heuristic classifier: `isLikelyCommonPassword` -/

/-- `common.charAt(0).toUpperCase() + common.slice(1)`. -/
def capitalizeStr (s : String) : String :=
  match s.toList with
  | [] => ""
  | c :: t => strOf (c.toUpper :: t)

/-- The ascending sequences checked by `isLikelyCommonPassword`. -/
def likelySequences : List String :=
  ["0123", "1234", "2345", "3456", "4567", "5678", "6789", "abcd", "wxyz"]

/-- The fixed word list of `isLikelyCommonPassword`'s word+digits rule. -/
def likelyCommonWords : List String :=
  ["password", "admin", "user", "login", "welcome", "manager", "secure",
   "security", "test", "server", "database", "account", "system", "network",
   "default", "guest"]

/-- `/^(19|20)\d{2}$/`. -/
def yearMatch (l : List Char) : Bool :=
  match l with
  | [a, b, c, d] =>
    ((a == '1' && b == '9') || (a == '2' && b == '0')) && c.isDigit && d.isDigit
  | _ => false

/-- `/^[a-z]+[0-9]{1,4}$/i`. -/
def lettersThen1to4Digits (l : List Char) : Bool :=
  let a := l.takeWhile Char.isAlpha
  let b := l.drop a.length
  !a.isEmpty && 1 ≤ b.length && b.length ≤ 4 && b.all Char.isDigit

/-- `isLikelyCommonPassword(pwd)`: the disjunction of the source's eleven
early-return checks, in order. -/
def isLikelyCommonPassword (pwd : List Char) : Bool :=
  if pwd.isEmpty then false
  else
    let lp := lowerL pwd
    -- 1. direct match in the common password list
    commonPasswords.any (fun c => c.toList == lp)
    -- 2. exact prefix+suffix combination
    || COMMON_PREFIXES.any (fun p => COMMON_SUFFIXES.any (fun s => lp == (p ++ s).toList))
    -- 3. exact dictionary-word+suffix combination
    || ALL_COMMON_WORDS.any (fun w => COMMON_SUFFIXES.any (fun s => lp == (w ++ s).toList))
    -- 4. simple variations of a common password (len > 4)
    || commonPasswords.any (fun c => 4 < c.length &&
        (lp == c.toList || lp == (c ++ "!").toList || lp == (capitalizeStr c).toList))
    -- 5. keyboard pattern of length ≥ 4 covering ≥ half of the password
    || keyboardPatterns.any (fun p =>
        4 ≤ p.length && hasSub p.toList lp && lp.length ≤ 2 * p.length)
    -- 6. sequential pattern covering ≥ half of the password
    || likelySequences.any (fun s => hasSub s.toList lp && lp.length ≤ 2 * s.length)
    -- 7. first run of ≥ 3 equal characters covering ≥ half of the password
    || (match firstRun3 lp with
        | some (n, _) => decide (lp.length ≤ 2 * n)
        | none => false)
    -- 8. a bare 4-digit year
    || yearMatch lp
    -- 9. leet-speak "admin" / "password" / "test" start
    || matchClasses [inSet "a@", inSet "d", inSet "m", inSet "i1", inSet "n"] lp
    || matchClasses [inSet "p", inSet "a@", inSet "s$", inSet "s$", inSet "w",
        inSet "0o", inSet "r", inSet "d"] lp
    || matchClasses [inSet "t", inSet "e3", inSet "s$", inSet "t"] lp
    -- 10. short single-character-class password
    || (pwd.length < 8 && (pwd.all Char.isAlpha || pwd.all Char.isDigit))
    -- 11. letters + 1-4 digits with a fixed-list word part
    || (lettersThen1to4Digits lp
        && likelyCommonWords.any (fun w => w.toList == stripTrailingDigits lp))

/-! ## Entropy calculator -/

/-- The charset-size sum used by `calculateEntropy` and `getCharsetSize`. -/
def charsetRaw (l : List Char) : ℕ :=
  (if anyLower l then 26 else 0) + (if anyUpper l then 26 else 0)
  + (if anyDigit l then 10 else 0) + (if anySymbol l then 33 else 0)

/-- `getCharsetSize` (`size || 10`). -/
def getCharsetSize (l : List Char) : ℕ :=
  if charsetRaw l = 0 then 10 else charsetRaw l

/-- The estimator/entropy keyboard table (`containsKeyboardPattern`). -/
def estKeyboardTable : List String :=
  ["qwerty", "asdfgh", "zxcvbnm", "qwertz", "12345"]

def containsKeyboardPattern (l : List Char) : Bool :=
  estKeyboardTable.any (fun p => hasSub p.toList (lowerL l))

/-- The estimator/entropy sequential table (`containsSequentialPattern`). -/
def estSequentialTable : List String :=
  ["123456", "12345", "1234", "abcdef", "abcde", "abcd", "654321", "54321", "4321"]

/-- The source's longest-substring-match loop (`longestMatch = ''`, keep a
pattern when it occurs and is strictly longer). -/
def longestSubIn (table : List String) (lp : List Char) : String :=
  table.foldl
    (fun best p => if hasSub p.toList lp ∧ best.length < p.length then p else best) ""

/-- `containsSequentialPattern(pwd).pattern` (`""` when not found; `found`
is `≠ ""`, `length` is its length). -/
def containsSequentialPattern (l : List Char) : String :=
  longestSubIn estSequentialTable (lowerL l)

/-- `calculateEntropy(pwd)` returns the exact real
`coef * log2 cs` represented as the pair `(coef, cs)`:
`log2((cs)^length)` scaled by the repetition factor
`1 - (repeatLength/length)*0.25`, the pattern factor
`1 - (0.2 + patternRatio*0.1)` and the word+number factor `0.9`,
floored at 0.  The empty password returns 0 (represented `(0, 1)`). -/
def calculateEntropy (l : List Char) : ℚ × ℕ :=
  if l.isEmpty then (0, 1)
  else
    let cs := if charsetRaw l = 0 then 1 else charsetRaw l
    let len : ℚ := l.length
    let c0 : ℚ := len
    let c1 := if repeatTotal l ≠ 0 then c0 * (1 - (repeatTotal l / len) * (1/4)) else c0
    let seq := containsSequentialPattern l
    let c2 :=
      if seq ≠ "" ∨ containsKeyboardPattern l then
        let patRat : ℚ := if seq ≠ "" then (seq.length : ℚ) / len else 0
        c1 * (1 - (1/5 + patRat * (1/10)))
      else c1
    let c3 := if lettersThenDigits l then c2 * (9/10) else c2
    (max 0 c3, cs)

/-- Exact decision of `coef * log2 cs > t` for `t > 0`:
with `coef = a/b > 0` this is `cs ^ (a * t.den) > 2 ^ (b * t.num)`. -/
def qlogGT (coef : ℚ) (cs : ℕ) (t : ℚ) : Bool :=
  if coef ≤ 0 then false
  else 2 ^ (coef.den * t.num.toNat) < cs ^ (coef.num.toNat * t.den)

/-- The scorer's entropy bonus (`entropy > 90/70/50/30`). -/
def entropyBonus (l : List Char) : ℚ :=
  let e := calculateEntropy l
  if qlogGT e.1 e.2 90 then 20
  else if qlogGT e.1 e.2 70 then 15
  else if qlogGT e.1 e.2 50 then 10
  else if qlogGT e.1 e.2 30 then 5
  else 0

/-! ## Composite scorer: the additive stages of `assessPasswordStrength`,
in source order.  Each stage returns its score delta together with the
pattern / issue strings it pushes. -/

/-- Number of character classes present. -/
def charTypes (l : List Char) : ℕ :=
  (if anyUpper l then 1 else 0) + (if anyLower l then 1 else 0)
  + (if anyDigit l then 1 else 0) + (if anySymbol l then 1 else 0)

/-- Character-diversity base score (the `switch` on `characterTypes`). -/
def diversityScore (l : List Char) : ℚ :=
  match charTypes l with
  | 4 => 40
  | 3 => 30
  | 2 => 20
  | 1 => 10
  | _ => 0

/-- The symbol-placement adjustment.  At this point of the source the
running score is exactly the diversity base, so `score < 80` is
`diversityScore l < 80`. -/
def symbolStage (l : List Char) : ℚ × List String × List String :=
  if anySymbol l then
    let symbolCount := l.countP isSym
    let edge := (match l with | c :: _ => isSym c | [] => false)
      || (match l.getLast? with | some c => isSym c | none => false)
    if symbolCount = 1 ∧ edge = true ∧ l.length < 16 ∧ diversityScore l < 80 then
      let pen : ℤ := max 3 (jsRound (10 - (l.length : ℚ) / 4))
      (-(pen : ℚ), ["Single symbol at predictable position"],
        ["Distribute symbols throughout password for better security"])
    else if (symbolCount : ℚ) / l.length < 1/20 ∧ 20 < l.length then
      (-2, [], [])
    else (0, [], [])
  else (0, [], [])

/-- Length bonus (and the "Too short" issue). -/
def lengthStage (n : ℕ) : ℚ × List String :=
  if 16 ≤ n then (30, [])
  else if 12 ≤ n then (25, [])
  else if 8 ≤ n then (15, [])
  else if 6 ≤ n then (10, [])
  else (5, ["Too short"])

/-- Common-password penalty. -/
def commonStage (l : List Char) : ℚ × List String × List String :=
  if isLikelyCommonPassword l then
    (-40, ["Common password pattern"], ["Common password or pattern detected"])
  else (0, [], [])

/-- Keyboard-pattern stage: the source iterates over *all* the table
entries (`keyboardPatterns.forEach`), subtracting
`Math.round(25 * pattern.length / pwd.length)` for each one that occurs. -/
def keyboardStage (l : List Char) : ℚ × List String :=
  keyboardPatterns.foldl
    (fun acc p =>
      if hasSub p.toList (lowerL l) then
        (acc.1 - ((jsRound ((25 * p.length : ℚ) / l.length) : ℤ) : ℚ),
          acc.2 ++ ["Keyboard pattern: " ++ p])
      else acc)
    (0, [])

/-- Repeating-characters stage (`/(.)\1{2,}/g`, flat −15). -/
def repeatStage (l : List Char) : ℚ × List String :=
  let runs := (rle l).filter (fun p => 3 ≤ p.1)
  if runs.isEmpty then (0, [])
  else
    (-15, ["Repeating characters: "
      ++ String.intercalate ", " (runs.map (fun p => strOf (List.replicate p.1 p.2)))])

/-- The scorer's own sequential table (each entry named
`Sequential pattern: <entry>` in the source). -/
def sequentialPatternsScorer : List String :=
  ["123456", "12345", "1234", "abcdef", "abcde", "abcd"]

/-- Sequential stage: single penalty for the longest matching entry. -/
def seqStage (l : List Char) : ℚ × List String :=
  let lm := longestSubIn sequentialPatternsScorer (lowerL l)
  if lm = "" then (0, [])
  else
    (-((jsRound ((20 * lm.length : ℚ) / l.length) : ℤ) : ℚ),
      ["Sequential pattern: " ++ lm])

/-- `/^(?:(?:[a-z][0-9])+|(?:[0-9][a-z])+)$/i`. -/
def altPairs (f g : Char → Bool) : List Char → Bool
  | [] => true
  | [_] => false
  | a :: b :: t => f a && g b && altPairs f g t

def alternatingPattern (l : List Char) : Bool :=
  !l.isEmpty && (altPairs Char.isAlpha Char.isDigit l || altPairs Char.isDigit Char.isAlpha l)

def altStage (l : List Char) : ℚ × List String :=
  if alternatingPattern l then (-15, ["Alternating pattern detected"]) else (0, [])

/-- `/[a@][s$][e3][t+]/i` or `/[p][a@][s$][s$][w][0o][r][d]/i`. -/
def leetStage (l : List Char) : ℚ × List String :=
  if containsClasses [inSet "aA@", inSet "sS$", inSet "eE3", inSet "tT+"] l
    || containsClasses [inSet "pP", inSet "aA@", inSet "sS$", inSet "sS$",
        inSet "wW", inSet "0oO", inSet "rR", inSet "dD"] l then
    (-10, ["L33t speak pattern detected"])
  else (0, [])

def wsnStage (l : List Char) : ℚ × List String :=
  if wordSymNumber l then (-15, ["Word+symbol+number formula detected"]) else (0, [])

/-- The scorer's fixed high-risk word list for word+number passwords. -/
def scorerCommonWords : List String :=
  ["password", "admin", "user", "login", "welcome", "manager", "secure",
   "security", "test", "server", "database", "account"]

def sequentialTriples : List String :=
  ["123", "234", "345", "456", "567", "678", "789",
   "987", "876", "765", "654", "543", "432", "321"]

def simpleNumberSeqs : List String :=
  ["123", "321", "111", "222", "333", "444", "555", "666", "777", "888",
   "999", "000"]

/-- The uncommon-word branch of the word+number rule: +5 bonus, then the
sequential-digit penalty/bonus or the non-sequential length bonus, then
the flat −5 for the simple repeated/triplet suffixes. -/
def uncommonWordNum (np : List Char) (l : List Char) : ℚ × List String :=
  let isSeq := sequentialTriples.any (fun p => hasSub p.toList np)
  let seqPart : ℚ × List String :=
    if isSeq then
      let lm := longestSubIn sequentialTriples np
      let adjP : ℤ := jsRound (10 * ((lm.length : ℚ) / l.length) * 2)
      (-((min adjP 10 : ℤ) : ℚ) + ((min (np.length : ℤ) 3 : ℤ) : ℚ),
        ["Sequential numbers in pattern"])
    else
      (if 3 ≤ np.length then ((min 5 ((np.length : ℤ) - 2) : ℤ) : ℚ) else 0, [])
  let simplePen : ℚ := if simpleNumberSeqs.any (fun p => p.toList == np) then -5 else 0
  (5 + seqPart.1 + simplePen, ["Uncommon word + number pattern"] ++ seqPart.2)

/-- Word+number stage (`/^([a-z]{3,})([0-9]+)$/i`). -/
def wordNumStage (l : List Char) : ℚ × List String :=
  match wordNumberMatch l with
  | none => (0, [])
  | some (wp, np) =>
    let wordPart := lowerL wp
    if scorerCommonWords.any (fun w => w.toList == wordPart) then
      (-25, ["Common word + number pattern"])
    else
      match COMMON_WORDS_CATEGORIES.find? (fun cat => cat.2.any (fun w => w.toList == wordPart)) with
      | some cat => (-25, [capitalizeStr cat.1 ++ " word + number pattern"])
      | none =>
        match isCommonWord wordPart with
        | .yes => (-20, ["Common word + number pattern"])
        | .graded c =>
          if 0 < c then (-(10 * c), ["Potentially common word + number pattern"])
          else uncommonWordNum np l
        | .no => uncommonWordNum np l

/-- The JS separator class (slash, hyphen-as-range, underscore, dot) is
the character *range* from slash to underscore, plus the dot. -/
def sepRange (c : Char) : Bool := ('/' ≤ c && c ≤ '_') || c == '.'

/-- One decomposition attempt for the day/month/year regex (1-2 digits,
separator, 1-2 digits, separator, optional century `19`/`20`, 2 digits)
with part widths `a`, `b`, `c`. -/
def dmySplit (a b c : ℕ) (l : List Char) : Bool :=
  l.length = a + 1 + b + 1 + c
  && (l.take a).all Char.isDigit
  && (match (l.drop a).head? with | some s => sepRange s | none => false)
  && ((l.drop (a + 1)).take b).all Char.isDigit
  && (match (l.drop (a + 1 + b)).head? with | some s => sepRange s | none => false)
  && (let y := l.drop (a + 1 + b + 1)
      if c = 4 then
        (match y with
         | p :: q :: _ => (p == '1' && q == '9') || (p == '2' && q == '0')
         | _ => false)
        && (y.drop 2).all Char.isDigit
      else y.all Char.isDigit)

/-- The day/month/year regex matches iff some decomposition works. -/
def dmyMatch (l : List Char) : Bool :=
  [1, 2].any (fun a => [1, 2].any (fun b => [2, 4].any (fun c => dmySplit a b c l)))

def dateStage (l : List Char) : ℚ × List String :=
  if yearMatch l || dmyMatch l then (-20, ["Date pattern"]) else (0, [])

/-- Single-character-class penalty (issues only, no pattern entry). -/
def singleClassStage (l : List Char) : ℚ × List String :=
  if 1 < l.length then
    if l.all Char.isAlpha then (-20, ["Only letters"])
    else if l.all Char.isDigit then (-30, ["Only numbers"])
    else (0, [])
  else (0, [])

/-- Missing-character-type feedback (no score effect). -/
def missingIssues (l : List Char) : List String :=
  (if anyUpper l then [] else ["No uppercase"])
  ++ (if anyLower l then [] else ["No lowercase"])
  ++ (if anyDigit l then [] else ["No numbers"])
  ++ (if anySymbol l then [] else ["No symbols"])

/-- The score before clamping: every additive adjustment of the source in
order, plus the consistency bonus `min(10, length)`. -/
def rawScore (l : List Char) : ℚ :=
  diversityScore l + (symbolStage l).1 + (lengthStage l.length).1 + entropyBonus l
  + (commonStage l).1 + (keyboardStage l).1 + (repeatStage l).1 + (seqStage l).1
  + (altStage l).1 + (leetStage l).1 + (wsnStage l).1 + (wordNumStage l).1
  + (dateStage l).1 + (singleClassStage l).1 + min 10 (l.length : ℚ)

/-- The detected-pattern list, in push order. -/
def patternsOf (l : List Char) : List String :=
  (symbolStage l).2.1 ++ (commonStage l).2.1 ++ (keyboardStage l).2
  ++ (repeatStage l).2 ++ (seqStage l).2 ++ (altStage l).2 ++ (leetStage l).2
  ++ (wsnStage l).2 ++ (wordNumStage l).2 ++ (dateStage l).2

/-- The issue list, in push order. -/
def issuesOf (l : List Char) : List String :=
  (symbolStage l).2.2 ++ (lengthStage l.length).2 ++ (commonStage l).2.2
  ++ (singleClassStage l).2 ++ missingIssues l

/-- `score = Math.max(1, Math.min(100, score))`. -/
def clampBase (q : ℚ) : ℚ := max 1 (min 100 q)

/-- The clamp followed by the floor override (score forced to ≥ 65 for
4-class, 12+, pattern-free, non-common passwords). -/
def finalScore (l : List Char) : ℚ :=
  if charTypes l = 4 ∧ 12 ≤ l.length ∧ patternsOf l = [] ∧ isLikelyCommonPassword l = false
  then max (clampBase (rawScore l)) 65
  else clampBase (rawScore l)

/-- Strength tier and color, with thresholds shifted by +10 per
pattern-detected / common flag. -/
def strengthTier (score : ℚ) (patCount : ℕ) (isCommon : Bool) : String × String :=
  let adj : ℚ := (if 0 < patCount then 10 else 0) + (if isCommon then 10 else 0)
  if 90 + adj ≤ score then ("Excellent", "text-purple-500")
  else if 80 + adj ≤ score then ("Very Strong", "text-green-500")
  else if 70 + adj ≤ score then ("Strong", "text-blue-500")
  else if 50 + adj ≤ score then ("Moderate", "text-yellow-500")
  else if 30 + adj ≤ score then ("Weak", "text-orange-500")
  else ("Very Weak", "text-red-500")

/-- The assessment record.  The reported (adjusted) entropy is the real
number `entropyCoef * log2 entropyBase`, capped at 40 when
`entropyCapped` (patterns present and score < 25). -/
structure PasswordAssessment where
  score : ℚ
  strength : String
  strengthColor : String
  entropyCoef : ℚ
  entropyBase : ℕ
  entropyCapped : Bool
  patterns : List String
  issues : List String
  hasUpper : Bool
  hasLower : Bool
  hasNumber : Bool
  hasSymbol : Bool
  length : ℕ
  isCommon : Bool
  hasPatterns : Bool
deriving Repr

/-- `assessPasswordStrength(pwd)`.  The empty password short-circuits to
the degenerate `{score: 0, issues: [], patterns: []}` record (the other
JS fields are left undefined there; we fill them with zero values). -/
def assessPasswordStrength (l : List Char) : PasswordAssessment :=
  if l = [] then
    { score := 0, strength := "", strengthColor := "", entropyCoef := 0,
      entropyBase := 1, entropyCapped := false, patterns := [], issues := [],
      hasUpper := false, hasLower := false, hasNumber := false,
      hasSymbol := false, length := 0, isCommon := false, hasPatterns := false }
  else
    let pats := patternsOf l
    let score := finalScore l
    let common := isLikelyCommonPassword l
    let tier := strengthTier score pats.length common
    let e := calculateEntropy l
    { score := score, strength := tier.1, strengthColor := tier.2,
      entropyCoef := e.1, entropyBase := e.2,
      entropyCapped := decide (pats ≠ [] ∧ score < 25),
      patterns := pats, issues := issuesOf l,
      hasUpper := anyUpper l, hasLower := anyLower l, hasNumber := anyDigit l,
      hasSymbol := anySymbol l, length := l.length, isCommon := common,
      hasPatterns := !pats.isEmpty }

/-! ## Character-class disjointness facts -/

theorem isAlpha_not_digit (c : Char) (h : c.isAlpha = true) : c.isDigit = false := by
  by_contra hne
  rw [Bool.not_eq_false] at hne
  simp only [Char.isAlpha, Char.isUpper, Char.isLower, Char.isDigit, Bool.or_eq_true,
    Bool.and_eq_true, decide_eq_true_eq] at h hne
  have hd1 : (48 : UInt32).toNat ≤ c.val.toNat := hne.1
  have hd2 : c.val.toNat ≤ (57 : UInt32).toNat := hne.2
  have e57 : (57 : UInt32).toNat = 57 := rfl
  rcases h with ⟨h1, _⟩ | ⟨h1, _⟩
  · have hu : (65 : UInt32).toNat ≤ c.val.toNat := h1
    have e65 : (65 : UInt32).toNat = 65 := rfl
    omega
  · have hu : (97 : UInt32).toNat ≤ c.val.toNat := h1
    have e97 : (97 : UInt32).toNat = 97 := rfl
    omega

theorem isDigit_not_upper (c : Char) (h : c.isDigit = true) : c.isUpper = false := by
  by_contra hne
  rw [Bool.not_eq_false] at hne
  simp only [Char.isUpper, Char.isDigit, Bool.and_eq_true, decide_eq_true_eq] at h hne
  have hd2 : c.val.toNat ≤ (57 : UInt32).toNat := h.2
  have hu : (65 : UInt32).toNat ≤ c.val.toNat := hne.1
  have e57 : (57 : UInt32).toNat = 57 := rfl
  have e65 : (65 : UInt32).toNat = 65 := rfl
  omega

theorem isDigit_not_lower (c : Char) (h : c.isDigit = true) : c.isLower = false := by
  by_contra hne
  rw [Bool.not_eq_false] at hne
  simp only [Char.isLower, Char.isDigit, Bool.and_eq_true, decide_eq_true_eq] at h hne
  have hd2 : c.val.toNat ≤ (57 : UInt32).toNat := h.2
  have hu : (97 : UInt32).toNat ≤ c.val.toNat := hne.1
  have e57 : (57 : UInt32).toNat = 57 := rfl
  have e97 : (97 : UInt32).toNat = 97 := rfl
  omega

theorem isAlpha_not_sym (c : Char) (h : c.isAlpha = true) : isSym c = false := by
  simp [isSym, Char.isAlphanum, h]

theorem isDigit_not_sym (c : Char) (h : c.isDigit = true) : isSym c = false := by
  simp [isSym, Char.isAlphanum, h]

/-! ## C1: the clamp invariant -/

theorem clampBase_bounds (q : ℚ) : 1 ≤ clampBase q ∧ clampBase q ≤ 100 :=
  ⟨le_max_left _ _, max_le (by norm_num) (min_le_left _ _)⟩

/-- C1 counterexample: the empty password's assessment has score 0,
violating the claimed lower bound 1. -/
theorem claim_C1_counterexample :
    (assessPasswordStrength []).score = 0 ∧
    ¬ (1 ≤ (assessPasswordStrength []).score) := by
  constructor
  · rfl
  · norm_num [assessPasswordStrength]

/-- C1 (amended to non-empty inputs): for every non-empty password the
assessment score satisfies `1 ≤ score ≤ 100`. -/
theorem claim_C1 (l : List Char) (h : l ≠ []) :
    1 ≤ (assessPasswordStrength l).score ∧ (assessPasswordStrength l).score ≤ 100 := by
  have hs : (assessPasswordStrength l).score = finalScore l := by
    simp [assessPasswordStrength, h]
  rw [hs, finalScore]
  split_ifs with hc
  · exact ⟨le_trans (clampBase_bounds (rawScore l)).1 (le_max_left _ _),
      max_le (clampBase_bounds (rawScore l)).2 (by norm_num)⟩
  · exact clampBase_bounds (rawScore l)

theorem claim_C1_witness :
    1 ≤ (assessPasswordStrength "a".toList).score ∧
    (assessPasswordStrength "a".toList).score ≤ 100 :=
  claim_C1 _ (by decide)

/-! ## C3: keyboard stage sums over all matches; sequential stage is
longest-match only -/

/-- The keyboard-table entries occurring in the lowercased password, in
table order. -/
def keyboardMatchList (l : List Char) : List String :=
  keyboardPatterns.filter (fun p => hasSub p.toList (lowerL l))

/-- A fold that subtracts `g p` and appends `nm p` for every entry
satisfying `f` equals the sum/map over the filtered list. -/
theorem foldl_filter_sum (f : String → Bool) (g : String → ℚ) (nm : String → String) :
    ∀ (ps : List String) (a : ℚ) (m : List String),
      ps.foldl (fun acc p => if f p then (acc.1 - g p, acc.2 ++ [nm p]) else acc) (a, m)
      = (a - ((ps.filter f).map g).sum, m ++ (ps.filter f).map nm) := by
  intro ps
  induction ps with
  | nil => intro a m; simp
  | cons p ps ih =>
    intro a m
    by_cases hp : f p = true
    · simp [hp, ih, List.filter_cons, sub_sub]
    · simp [hp, ih, List.filter_cons]

/-- C3 (amended): the keyboard stage subtracts one rounded
`25 * length/passwordLength` penalty for *every* matching table entry (in
table order), not only for the longest one; the sequential stage, by
contrast, reports at most one pattern (the longest match). -/
theorem claim_C3 (l : List Char) :
    keyboardStage l
      = (-(((keyboardMatchList l).map
            (fun p => ((jsRound ((25 * p.length : ℚ) / l.length) : ℤ) : ℚ))).sum),
         (keyboardMatchList l).map (fun p => "Keyboard pattern: " ++ p))
    ∧ (seqStage l).2.length ≤ 1 := by
  constructor
  · have h := foldl_filter_sum (fun p => hasSub p.toList (lowerL l))
      (fun p => ((jsRound ((25 * p.length : ℚ) / l.length) : ℤ) : ℚ))
      (fun p => "Keyboard pattern: " ++ p) keyboardPatterns 0 []
    have h2 : keyboardStage l
        = (0 - (((keyboardMatchList l).map
            (fun p => ((jsRound ((25 * p.length : ℚ) / l.length) : ℤ) : ℚ))).sum),
          [] ++ (keyboardMatchList l).map (fun p => "Keyboard pattern: " ++ p)) := h
    rw [h2, zero_sub, List.nil_append]
  · rw [seqStage]
    split_ifs <;> simp

unseal Rat.add Rat.mul Rat.sub Rat.inv in
/-- C3 counterexample: `"qwertyXm"` contains both `qwerty` and `qwer`;
the stage subtracts 19 + 13 = 32 points and records two keyboard
patterns, where the claim predicts a single penalty of 19. -/
theorem claim_C3_counterexample :
    (keyboardStage "qwertyXm".toList).2.length = 2 ∧
    keyboardStage "qwertyXm".toList
      = (-32, ["Keyboard pattern: qwerty", "Keyboard pattern: qwer"]) ∧
    ((jsRound ((25 * ("qwerty".length : ℚ)) / ("qwertyXm".toList.length : ℚ)) : ℤ) : ℚ) = 19 ∧
    (-32 : ℚ) ≠ -19 := by
  refine ⟨by decide, by decide, by decide, by decide⟩

/-! ## C7: stage facts used by the diversity-monotonicity analysis -/

theorem charTypes_le_four (l : List Char) : charTypes l ≤ 4 := by
  unfold charTypes; split_ifs <;> norm_num

theorem charTypes_pos_ne_nil (l : List Char) (h : 1 ≤ charTypes l) : l ≠ [] := by
  intro he
  subst he
  exact absurd h (by decide)

/-- An empty pattern list means every stage pushed nothing. -/
theorem patternsOf_parts (l : List Char) (h : patternsOf l = []) :
    (symbolStage l).2.1 = [] ∧ (commonStage l).2.1 = [] ∧ (keyboardStage l).2 = []
    ∧ (repeatStage l).2 = [] ∧ (seqStage l).2 = [] ∧ (altStage l).2 = []
    ∧ (leetStage l).2 = [] ∧ (wsnStage l).2 = [] ∧ (wordNumStage l).2 = []
    ∧ (dateStage l).2 = [] := by
  simp only [patternsOf, List.append_eq_nil] at h
  tauto

theorem commonStage_empty (l : List Char) (h : (commonStage l).2.1 = []) :
    (commonStage l).1 = 0 ∧ isLikelyCommonPassword l = false := by
  unfold commonStage at h ⊢
  by_cases hc : isLikelyCommonPassword l = true
  · rw [if_pos hc] at h
    simp at h
  · rw [if_neg hc] at h ⊢
    exact ⟨rfl, by simpa using hc⟩

theorem keyboardStage_empty (l : List Char) (h : (keyboardStage l).2 = []) :
    (keyboardStage l).1 = 0 := by
  have h2 : keyboardStage l
      = (0 - (((keyboardPatterns.filter (fun p => hasSub p.toList (lowerL l))).map
          (fun p => ((jsRound ((25 * p.length : ℚ) / l.length) : ℤ) : ℚ))).sum),
        [] ++ (keyboardPatterns.filter (fun p => hasSub p.toList (lowerL l))).map
          (fun p => "Keyboard pattern: " ++ p)) :=
    foldl_filter_sum _ _ _ keyboardPatterns 0 []
  rw [h2] at h ⊢
  simp only [List.nil_append] at h
  rw [List.map_eq_nil_iff] at h
  rw [h]
  simp

theorem repeatStage_empty (l : List Char) (h : (repeatStage l).2 = []) :
    (repeatStage l).1 = 0 := by
  simp only [repeatStage] at h ⊢
  split_ifs at * <;> simp_all

theorem seqStage_empty (l : List Char) (h : (seqStage l).2 = []) :
    (seqStage l).1 = 0 := by
  simp only [seqStage] at h ⊢
  split_ifs at * <;> simp_all

theorem altStage_empty (l : List Char) (h : (altStage l).2 = []) :
    (altStage l).1 = 0 := by
  unfold altStage at *
  split_ifs at * <;> simp_all

theorem leetStage_empty (l : List Char) (h : (leetStage l).2 = []) :
    (leetStage l).1 = 0 := by
  unfold leetStage at *
  split_ifs at * <;> simp_all

theorem wsnStage_empty (l : List Char) (h : (wsnStage l).2 = []) :
    (wsnStage l).1 = 0 := by
  unfold wsnStage at *
  split_ifs at * <;> simp_all

theorem dateStage_empty (l : List Char) (h : (dateStage l).2 = []) :
    (dateStage l).1 = 0 := by
  unfold dateStage at *
  split_ifs at * <;> simp_all

theorem uncommonWordNum_ne (np l : List Char) : (uncommonWordNum np l).2 ≠ [] := by
  simp [uncommonWordNum]

theorem wordNumStage_empty (l : List Char) (h : (wordNumStage l).2 = []) :
    (wordNumStage l).1 = 0 := by
  rcases hm : wordNumberMatch l with _ | ⟨wp, np⟩
  · unfold wordNumStage
    rw [hm]
  · by_cases hw : (scorerCommonWords.any fun w => w.toList == lowerL wp) = true
    · have he : wordNumStage l = (-25, ["Common word + number pattern"]) := by
        unfold wordNumStage
        rw [hm]
        dsimp only
        rw [if_pos hw]
      rw [he] at h
      simp at h
    · rcases hf : COMMON_WORDS_CATEGORIES.find?
          (fun cat => cat.2.any (fun w => w.toList == lowerL wp)) with _ | cat
      · rcases hcw : isCommonWord (lowerL wp) with _ | _ | c
        · have he : wordNumStage l = (-20, ["Common word + number pattern"]) := by
            unfold wordNumStage
            rw [hm]
            dsimp only
            rw [if_neg hw, hf, hcw]
          rw [he] at h
          simp at h
        · have he : wordNumStage l = uncommonWordNum np l := by
            unfold wordNumStage
            rw [hm]
            dsimp only
            rw [if_neg hw, hf, hcw]
          rw [he] at h
          exact absurd h (uncommonWordNum_ne np l)
        · by_cases hc : (0 : ℚ) < c
          · have he : wordNumStage l
                = (-(10 * c), ["Potentially common word + number pattern"]) := by
              unfold wordNumStage
              rw [hm]
              dsimp only
              rw [if_neg hw, hf, hcw]
              dsimp only
              rw [if_pos hc]
            rw [he] at h
            simp at h
          · have he : wordNumStage l = uncommonWordNum np l := by
              unfold wordNumStage
              rw [hm]
              dsimp only
              rw [if_neg hw, hf, hcw]
              dsimp only
              rw [if_neg hc]
            rw [he] at h
            exact absurd h (uncommonWordNum_ne np l)
      · have he : wordNumStage l
            = (-25, [capitalizeStr cat.1 ++ " word + number pattern"]) := by
          unfold wordNumStage
          rw [hm]
          dsimp only
          rw [if_neg hw, hf]
        rw [he] at h
        simp at h

theorem symbolStage_cases (l : List Char) :
    symbolStage l = (0, [], []) ∨ symbolStage l = (-2, [], [])
    ∨ symbolStage l = (-((max 3 (jsRound (10 - (l.length : ℚ) / 4)) : ℤ) : ℚ),
        ["Single symbol at predictable position"],
        ["Distribute symbols throughout password for better security"]) := by
  unfold symbolStage
  dsimp only
  split_ifs <;> simp

theorem symbolStage_le (l : List Char) : (symbolStage l).1 ≤ 0 := by
  have h0 : (0 : ℚ) ≤ ((max 3 (jsRound (10 - (l.length : ℚ) / 4)) : ℤ) : ℚ) := by
    have h1 : (0 : ℤ) ≤ max 3 (jsRound (10 - (l.length : ℚ) / 4)) :=
      le_trans (by norm_num) (le_max_left _ _)
    exact_mod_cast h1
  rcases symbolStage_cases l with h | h | h <;> rw [h] <;> dsimp only <;> linarith

theorem symbolStage_empty_ge (l : List Char) (h : (symbolStage l).2.1 = []) :
    -2 ≤ (symbolStage l).1 := by
  rcases symbolStage_cases l with h2 | h2 | h2
  · rw [h2]
    norm_num
  · rw [h2]
  · rw [h2] at h
    exact absurd h (by simp)

theorem singleClassStage_le (l : List Char) : (singleClassStage l).1 ≤ 0 := by
  unfold singleClassStage
  split_ifs <;> norm_num

theorem all_alpha_no_digit (l : List Char) (h : l.all Char.isAlpha = true) :
    anyDigit l = false := by
  rw [anyDigit, List.any_eq_false]
  intro c hc
  rw [List.all_eq_true] at h
  simp [isAlpha_not_digit c (h c hc)]

theorem all_alpha_no_sym (l : List Char) (h : l.all Char.isAlpha = true) :
    anySymbol l = false := by
  rw [anySymbol, List.any_eq_false]
  intro c hc
  rw [List.all_eq_true] at h
  simp [isAlpha_not_sym c (h c hc)]

theorem all_digit_types (l : List Char) (h : l.all Char.isDigit = true) :
    anyUpper l = false ∧ anyLower l = false ∧ anySymbol l = false := by
  rw [List.all_eq_true] at h
  refine ⟨?_, ?_, ?_⟩
  · rw [anyUpper, List.any_eq_false]
    intro c hc
    simp [isDigit_not_upper c (h c hc)]
  · rw [anyLower, List.any_eq_false]
    intro c hc
    simp [isDigit_not_lower c (h c hc)]
  · rw [anySymbol, List.any_eq_false]
    intro c hc
    simp [isDigit_not_sym c (h c hc)]

theorem singleClassStage_ct3 (l : List Char) (h : 3 ≤ charTypes l) :
    (singleClassStage l).1 = 0 := by
  unfold singleClassStage
  split_ifs with h1 h2 h3
  · exfalso
    have hd := all_alpha_no_digit l h2
    have hs := all_alpha_no_sym l h2
    rw [charTypes, hd, hs] at h
    split_ifs at h <;> simp_all
  · exfalso
    obtain ⟨hu, hlo, hs⟩ := all_digit_types l h3
    rw [charTypes, hu, hlo, hs] at h
    split_ifs at h <;> simp_all
  · rfl
  · rfl

theorem diversityScore_succ (l1 l2 : List Char) (hct : charTypes l2 = charTypes l1 + 1)
    (hk : 2 ≤ charTypes l1) :
    diversityScore l2 = diversityScore l1 + 10 := by
  have h4 := charTypes_le_four l2
  have : charTypes l1 = 2 ∨ charTypes l1 = 3 := by omega
  rcases this with h | h <;>
    · rw [diversityScore, diversityScore, h, hct, h]
      norm_num

/-- C7 (amended): monotonic diversity holds from 2 classes upward: for
passwords of equal length, both with an empty detected-pattern list,
equal entropy bonus, and `k ≥ 2` versus `k+1` character classes, the
`k+1`-class password scores at least as high.  (For `k = 1` the claim
fails, see the counterexample: a symbols-only password dodges the
letters-only/digits-only penalty.) -/
theorem claim_C7 (p1 p2 : List Char)
    (hlen : p2.length = p1.length)
    (h1 : (assessPasswordStrength p1).patterns = [])
    (h2 : (assessPasswordStrength p2).patterns = [])
    (hent : entropyBonus p1 = entropyBonus p2)
    (hct : charTypes p2 = charTypes p1 + 1)
    (hk : 2 ≤ charTypes p1) :
    (assessPasswordStrength p1).score ≤ (assessPasswordStrength p2).score := by
  have hne1 : p1 ≠ [] := charTypes_pos_ne_nil p1 (by omega)
  have hne2 : p2 ≠ [] := charTypes_pos_ne_nil p2 (by omega)
  have hp1 : patternsOf p1 = [] := by simpa [assessPasswordStrength, hne1] using h1
  have hp2 : patternsOf p2 = [] := by simpa [assessPasswordStrength, hne2] using h2
  have hs1 : (assessPasswordStrength p1).score = finalScore p1 := by
    simp [assessPasswordStrength, hne1]
  have hs2 : (assessPasswordStrength p2).score = finalScore p2 := by
    simp [assessPasswordStrength, hne2]
  rw [hs1, hs2]
  have h4 := charTypes_le_four p2
  obtain ⟨a1, b1, c1, d1, e1, f1, g1, i1, j1, k1⟩ := patternsOf_parts p1 hp1
  obtain ⟨a2, b2, c2, d2, e2, f2, g2, i2, j2, k2⟩ := patternsOf_parts p2 hp2
  have hdiv : diversityScore p2 = diversityScore p1 + 10 := diversityScore_succ p1 p2 hct hk
  have hsy1 : (symbolStage p1).1 ≤ 0 := symbolStage_le p1
  have hsy2 : -2 ≤ (symbolStage p2).1 := symbolStage_empty_ge p2 a2
  have hcm1 := (commonStage_empty p1 b1).1
  have hcm2 := (commonStage_empty p2 b2).1
  have hkb1 := keyboardStage_empty p1 c1
  have hkb2 := keyboardStage_empty p2 c2
  have hrp1 := repeatStage_empty p1 d1
  have hrp2 := repeatStage_empty p2 d2
  have hsq1 := seqStage_empty p1 e1
  have hsq2 := seqStage_empty p2 e2
  have hal1 := altStage_empty p1 f1
  have hal2 := altStage_empty p2 f2
  have hlt1 := leetStage_empty p1 g1
  have hlt2 := leetStage_empty p2 g2
  have hwn1 := wsnStage_empty p1 i1
  have hwn2 := wsnStage_empty p2 i2
  have hwd1 := wordNumStage_empty p1 j1
  have hwd2 := wordNumStage_empty p2 j2
  have hdt1 := dateStage_empty p1 k1
  have hdt2 := dateStage_empty p2 k2
  have hsc1 : (singleClassStage p1).1 ≤ 0 := singleClassStage_le p1
  have hsc2 : (singleClassStage p2).1 = 0 := singleClassStage_ct3 p2 (by omega)
  have hlb : (lengthStage p2.length).1 = (lengthStage p1.length).1 := by rw [hlen]
  have hmn : min 10 ((p2.length : ℚ)) = min 10 ((p1.length : ℚ)) := by rw [hlen]
  have hraw : rawScore p1 + 8 ≤ rawScore p2 := by
    unfold rawScore
    rw [hdiv, hlb, hmn, hent, hcm1, hcm2, hkb1, hkb2, hrp1, hrp2, hsq1, hsq2,
      hal1, hal2, hlt1, hlt2, hwn1, hwn2, hwd1, hwd2, hdt1, hdt2, hsc2]
    linarith
  have hcl : clampBase (rawScore p1) ≤ clampBase (rawScore p2) :=
    max_le_max le_rfl (min_le_min le_rfl (by linarith))
  have hf1 : finalScore p1 = clampBase (rawScore p1) := by
    unfold finalScore
    rw [if_neg]
    rintro ⟨hc4, -⟩
    omega
  have hf2 : clampBase (rawScore p2) ≤ finalScore p2 := by
    unfold finalScore
    split_ifs
    · exact le_max_left _ _
    · exact le_rfl
  rw [hf1]
  exact le_trans hcl hf2

set_option maxRecDepth 100000 in
unseal Rat.add Rat.mul Rat.sub Rat.inv in
/-- C7 counterexample at `k = 1`: the symbols-only password `!@#&*()?`
(one character class, score 38) outscores the two-class mixed-case
`QwNrKbXm` (score 28) at equal length 8, with both assessments
pattern-free and carrying the same entropy bonus: the claimed
monotonicity fails going from 1 class to 2. -/
theorem claim_C7_counterexample :
    "QwNrKbXm".toList.length = "!@#&*()?".toList.length ∧
    (assessPasswordStrength "!@#&*()?".toList).patterns = [] ∧
    (assessPasswordStrength "QwNrKbXm".toList).patterns = [] ∧
    charTypes "!@#&*()?".toList = 1 ∧
    charTypes "QwNrKbXm".toList = 2 ∧
    entropyBonus "!@#&*()?".toList = entropyBonus "QwNrKbXm".toList ∧
    (assessPasswordStrength "QwNrKbXm".toList).score
      < (assessPasswordStrength "!@#&*()?".toList).score := by
  refine ⟨by decide, by decide, by decide, by decide, by decide, by decide, by decide⟩

set_option maxRecDepth 100000 in
unseal Rat.add Rat.mul Rat.sub Rat.inv in
theorem claim_C7_witness :
    (assessPasswordStrength "QwNrKbXm".toList).score
      ≤ (assessPasswordStrength "Qw3rKbXm".toList).score :=
  claim_C7 _ _ (by decide) (by decide) (by decide) (by decide) (by decide) (by decide)

/-! ## Generator -/

structure GeneratorConfig where
  length : ℕ
  includeUppercase : Bool
  includeLowercase : Bool
  includeNumbers : Bool
  includeSymbols : Bool
  excludeSimilar : Bool
  pronounceable : Bool

def lowercaseRange : List Char := "abcdefghijklmnopqrstuvwxyz".toList
def uppercaseRange : List Char := "ABCDEFGHIJKLMNOPQRSTUVWXYZ".toList
def digitRange : List Char := "0123456789".toList
def symbolRange : List Char := "!@#$%^&*()_+-=[]{}|;:,.<>?".toList

/-- The look-alike characters stripped by `excludeSimilar`
(`/[il1Lo0O]/g`). -/
def similarChars : List Char := ['i', 'l', '1', 'L', 'o', '0', 'O']

/-- The charset concatenated from the enabled include-flags, minus the
look-alikes when `excludeSimilar`. -/
def buildCharset (c : GeneratorConfig) : List Char :=
  let cs := (if c.includeLowercase then lowercaseRange else [])
    ++ (if c.includeUppercase then uppercaseRange else [])
    ++ (if c.includeNumbers then digitRange else [])
    ++ (if c.includeSymbols then symbolRange else [])
  if c.excludeSimilar then cs.filter (fun ch => !similarChars.contains ch) else cs

def consonantTable : List Char := "bcdfghjklmnpqrstvwxz".toList
def vowelTable : List Char := "aeiou".toList
def pronSymbolTable : List Char := "!@#$%".toList

/-- String concatenation of a digit 0-9 (`result += Math.floor(...)`). -/
def digitChar (d : ℕ) : Char := Char.ofNat (48 + d)

/-- The alternating consonant/vowel core of the pronounceable mode:
character `i` is a consonant pick for even `i`, a vowel pick for odd. -/
def pronCore (rand : ℕ → ℕ) (n : ℕ) : List Char :=
  (List.range n).map (fun i =>
    if i % 2 = 0 then consonantTable.getD (rand i % 20) 'b'
    else vowelTable.getD (rand i % 5) 'a')

/-- `generatePassword` over a random stream: the pronounceable branch
builds `ceil(length/2)` alternating picks, optionally appends one digit
and one symbol when there is room, and truncates; the main branch draws
`length` uniform picks from the built charset, bailing out (empty
result) when the charset is empty. -/
def generatePassword (c : GeneratorConfig) (rand : ℕ → ℕ) : List Char :=
  if c.pronounceable then
    let half := (c.length + 1) / 2
    let core := pronCore rand half
    let withNum :=
      if c.includeNumbers ∧ core.length < c.length
      then core ++ [digitChar (rand half % 10)] else core
    let symIdx := if c.includeNumbers ∧ core.length < c.length then half + 1 else half
    let withSym :=
      if c.includeSymbols ∧ withNum.length < c.length
      then withNum ++ [pronSymbolTable.getD (rand symIdx % 5) '!'] else withNum
    withSym.take c.length
  else
    let cs := buildCharset c
    if cs = [] then []
    else (List.range c.length).map (fun i => cs.getD (rand i % cs.length) 'a')

/-! ## C2 / C6 / C8: generator contracts -/

/-- C2 counterexample: pronounceable length 6 with numbers and symbols
enabled produces only 5 characters (3 alternating picks + 1 digit + 1
symbol), so the exact-length contract fails in pronounceable mode. -/
theorem claim_C2_counterexample :
    buildCharset ⟨6, true, true, true, true, false, true⟩ ≠ [] ∧
    (generatePassword ⟨6, true, true, true, true, false, true⟩ (fun _ => 0)).length = 5 ∧
    (5 : ℕ) ≠ 6 :=
  ⟨by decide, by decide, by decide⟩

/-- C2 (amended to non-pronounceable mode): with a non-empty resolved
charset and `pronounceable` off, the generated password has exactly
`length` characters. -/
theorem claim_C2 (c : GeneratorConfig) (rand : ℕ → ℕ)
    (hp : c.pronounceable = false) (hcs : buildCharset c ≠ []) :
    (generatePassword c rand).length = c.length := by
  simp [generatePassword, hp, hcs]

theorem claim_C2_witness :
    (generatePassword ⟨16, true, true, true, true, true, false⟩ (fun _ => 0)).length = 16 :=
  claim_C2 _ _ rfl (by decide)

/-- C6: with every include-flag off and `pronounceable` off the charset
is empty and generation produces no password (the source's bare `return`;
modelled as the empty string), without any exception. -/
theorem claim_C6 (c : GeneratorConfig) (rand : ℕ → ℕ)
    (hp : c.pronounceable = false)
    (hu : c.includeUppercase = false) (hl : c.includeLowercase = false)
    (hn : c.includeNumbers = false) (hs : c.includeSymbols = false) :
    generatePassword c rand = [] := by
  have hcs : buildCharset c = [] := by
    simp [buildCharset, hu, hl, hn, hs]
  simp [generatePassword, hp, hcs]

theorem claim_C6_witness :
    generatePassword ⟨16, false, false, false, false, false, false⟩ (fun _ => 0) = [] :=
  claim_C6 _ _ rfl rfl rfl rfl rfl

theorem getD_mod_mem (cs : List Char) (k : ℕ) (d : Char) (h : cs ≠ []) :
    cs.getD (k % cs.length) d ∈ cs := by
  have hl : 0 < cs.length := List.length_pos.mpr h
  have hk : k % cs.length < cs.length := Nat.mod_lt _ hl
  rw [List.getD_eq_getElem cs d hk]
  exact List.getElem_mem hk

theorem getD_mod_mem' (cs : List Char) (k m : ℕ) (d : Char) (h : cs ≠ [])
    (hm : cs.length = m) : cs.getD (k % m) d ∈ cs := by
  subst hm
  exact getD_mod_mem cs k d h

/-- Every character of the `excludeSimilar` charset avoids the
look-alike list. -/
theorem buildCharset_no_similar (c : GeneratorConfig) (hex : c.excludeSimilar = true) :
    ∀ ch ∈ buildCharset c, ch ∉ similarChars := by
  intro ch hch hmm
  rw [buildCharset, if_pos hex] at hch
  have hpred := (List.mem_filter.mp hch).2
  rw [Bool.not_eq_true'] at hpred
  rw [List.contains] at hpred
  rw [← List.elem_iff] at hmm
  rw [hpred] at hmm
  exact Bool.noConfusion hmm

/-- C8: in non-pronounceable mode every generated character belongs to
the charset implied by the enabled flags, and never is a stripped
look-alike when `excludeSimilar` is on. -/
theorem claim_C8 (c : GeneratorConfig) (rand : ℕ → ℕ)
    (hp : c.pronounceable = false) (hcs : buildCharset c ≠ []) :
    ∀ ch ∈ generatePassword c rand,
      ch ∈ buildCharset c ∧ (c.excludeSimilar = true → ch ∉ similarChars) := by
  have hg : generatePassword c rand
      = (List.range c.length).map
          (fun i => (buildCharset c).getD (rand i % (buildCharset c).length) 'a') := by
    simp [generatePassword, hp, hcs]
  intro ch hch
  rw [hg] at hch
  obtain ⟨i, _, rfl⟩ := List.mem_map.mp hch
  have hm := getD_mod_mem (buildCharset c) (rand i) 'a' hcs
  exact ⟨hm, fun hex => buildCharset_no_similar c hex _ hm⟩

theorem claim_C8_witness :
    'a' ∈ buildCharset ⟨16, true, true, true, true, true, false⟩ ∧
    ((⟨16, true, true, true, true, true, false⟩ : GeneratorConfig).excludeSimilar = true →
      'a' ∉ similarChars) :=
  claim_C8 _ (fun _ => 0) rfl (by decide) 'a' (by decide)

/-! ## C10: pronounceable-mode structure -/

theorem digitChar_facts (k : ℕ) :
    (digitChar (k % 10)).isDigit = true ∧ (digitChar (k % 10)).isUpper = false
    ∧ pronSymbolTable.contains (digitChar (k % 10)) = false := by
  have h : k % 10 < 10 := Nat.mod_lt _ (by norm_num)
  have hall : ∀ m < 10, (digitChar m).isDigit = true ∧ (digitChar m).isUpper = false
      ∧ pronSymbolTable.contains (digitChar m) = false := by decide
  exact hall _ h

theorem pronLetter_facts :
    ∀ ch ∈ consonantTable ++ vowelTable,
      ch.isDigit = false ∧ ch.isUpper = false ∧ pronSymbolTable.contains ch = false := by
  decide

theorem pronSymbol_facts :
    ∀ ch ∈ pronSymbolTable,
      ch.isDigit = false ∧ ch.isUpper = false ∧ pronSymbolTable.contains ch = true := by
  decide

theorem ne_true_of_false {b : Bool} (h : b = false) : ¬ (b = true) := by
  subst h
  exact Bool.noConfusion

theorem pronCore_length (rand : ℕ → ℕ) (n : ℕ) : (pronCore rand n).length = n := by
  simp [pronCore]

theorem pronCore_mem (rand : ℕ → ℕ) (n : ℕ) :
    ∀ ch ∈ pronCore rand n, ch ∈ consonantTable ∨ ch ∈ vowelTable := by
  intro ch hch
  rw [pronCore] at hch
  obtain ⟨i, _, rfl⟩ := List.mem_map.mp hch
  by_cases h : i % 2 = 0
  · rw [if_pos h]
    exact Or.inl (getD_mod_mem' consonantTable (rand i) 20 'b' (by decide) (by decide))
  · rw [if_neg h]
    exact Or.inr (getD_mod_mem' vowelTable (rand i) 5 'a' (by decide) (by decide))

theorem pronCore_countP_digit (rand : ℕ → ℕ) (n : ℕ) :
    (pronCore rand n).countP (fun ch => ch.isDigit) = 0 := by
  rw [List.countP_eq_zero]
  intro ch hch
  rcases pronCore_mem rand n ch hch with h | h
  · simp [(pronLetter_facts ch (List.mem_append_left _ h)).1]
  · simp [(pronLetter_facts ch (List.mem_append_right _ h)).1]

theorem pronCore_countP_symbol (rand : ℕ → ℕ) (n : ℕ) :
    (pronCore rand n).countP (fun ch => pronSymbolTable.contains ch) = 0 := by
  rw [List.countP_eq_zero]
  intro ch hch
  intro hcontains
  rcases pronCore_mem rand n ch hch with h | h
  · rw [(pronLetter_facts ch (List.mem_append_left _ h)).2.2] at hcontains
    exact Bool.noConfusion hcontains
  · rw [(pronLetter_facts ch (List.mem_append_right _ h)).2.2] at hcontains
    exact Bool.noConfusion hcontains

/-- The pronounceable branch decomposed: the alternating core followed by
at most one digit and at most one symbol, truncated to `length`. -/
theorem generate_pron_structure (c : GeneratorConfig) (rand : ℕ → ℕ)
    (hp : c.pronounceable = true) :
    ∃ ext : List Char,
      generatePassword c rand
        = (pronCore rand ((c.length + 1) / 2) ++ ext).take c.length
      ∧ ext.countP (fun ch => ch.isDigit) ≤ 1
      ∧ ext.countP (fun ch => pronSymbolTable.contains ch) ≤ 1
      ∧ (∀ ch ∈ ext, (ch.isDigit = true ∨ ch ∈ pronSymbolTable) ∧ ch.isUpper = false) := by
  rw [generatePassword, if_pos hp]
  dsimp only
  split_ifs with hn hs hs
  · have hd := digitChar_facts (rand ((c.length + 1) / 2))
    have hm := getD_mod_mem' pronSymbolTable (rand ((c.length + 1) / 2 + 1)) 5 '!'
      (by decide) (by decide)
    have hsym := pronSymbol_facts _ hm
    refine ⟨[digitChar (rand ((c.length + 1) / 2) % 10),
      pronSymbolTable.getD (rand ((c.length + 1) / 2 + 1) % 5) '!'],
      by rw [List.append_assoc]; rfl, ?_, ?_, ?_⟩
    · simp only [List.countP_cons, List.countP_nil]
      rw [if_pos hd.1, if_neg (ne_true_of_false hsym.1)]
    · simp only [List.countP_cons, List.countP_nil]
      rw [if_pos hsym.2.2, if_neg (ne_true_of_false hd.2.2)]
    · intro ch hch
      rw [List.mem_cons, List.mem_cons] at hch
      rcases hch with h | h | h
      · subst h
        exact ⟨Or.inl hd.1, hd.2.1⟩
      · subst h
        exact ⟨Or.inr hm, hsym.2.1⟩
      · simp at h
  · have hd := digitChar_facts (rand ((c.length + 1) / 2))
    refine ⟨[digitChar (rand ((c.length + 1) / 2) % 10)], rfl, ?_, ?_, ?_⟩
    · simp only [List.countP_cons, List.countP_nil]
      rw [if_pos hd.1]
    · simp only [List.countP_cons, List.countP_nil]
      rw [if_neg (ne_true_of_false hd.2.2)]
      norm_num
    · intro ch hch
      rw [List.mem_cons] at hch
      rcases hch with h | h
      · subst h
        exact ⟨Or.inl hd.1, hd.2.1⟩
      · simp at h
  · have hm := getD_mod_mem' pronSymbolTable (rand ((c.length + 1) / 2)) 5 '!'
      (by decide) (by decide)
    have hsym := pronSymbol_facts _ hm
    refine ⟨[pronSymbolTable.getD (rand ((c.length + 1) / 2) % 5) '!'], rfl, ?_, ?_, ?_⟩
    · simp only [List.countP_cons, List.countP_nil]
      rw [if_neg (ne_true_of_false hsym.1)]
      norm_num
    · simp only [List.countP_cons, List.countP_nil]
      rw [if_pos hsym.2.2]
    · intro ch hch
      rw [List.mem_cons] at hch
      rcases hch with h | h
      · subst h
        exact ⟨Or.inr hm, hsym.2.1⟩
      · simp at h
  · exact ⟨[], by rw [List.append_nil], by norm_num, by norm_num,
      by intro ch hch; cases hch⟩

theorem pronCore_getD (rand : ℕ → ℕ) (n i : ℕ) (h : i < n) :
    (pronCore rand n).getD i ' '
      = (if i % 2 = 0 then consonantTable.getD (rand i % 20) 'b'
         else vowelTable.getD (rand i % 5) 'a') := by
  have hl : i < (pronCore rand n).length := by
    rw [pronCore_length]
    exact h
  rw [List.getD_eq_getElem _ _ hl]
  unfold pronCore
  simp

/-- C10: in pronounceable mode the generator ignores `includeUppercase`,
`includeLowercase` and `excludeSimilar`; letters alternate
consonant/vowel from the two fixed sets (consonant first); the output
carries at most one digit and at most one `!@#$%` symbol; and no
character is ever uppercase. -/
theorem claim_C10 (c : GeneratorConfig) (rand : ℕ → ℕ) (hp : c.pronounceable = true) :
    (∀ c' : GeneratorConfig, c'.pronounceable = true → c'.length = c.length →
      c'.includeNumbers = c.includeNumbers → c'.includeSymbols = c.includeSymbols →
      generatePassword c' rand = generatePassword c rand) ∧
    (∀ ch ∈ generatePassword c rand,
      (ch ∈ consonantTable ∨ ch ∈ vowelTable ∨ ch.isDigit = true ∨ ch ∈ pronSymbolTable)
      ∧ ch.isUpper = false) ∧
    (∀ i, i < (generatePassword c rand).length → i < (c.length + 1) / 2 →
      (i % 2 = 0 → (generatePassword c rand).getD i ' ' ∈ consonantTable)
      ∧ (i % 2 ≠ 0 → (generatePassword c rand).getD i ' ' ∈ vowelTable)) ∧
    (generatePassword c rand).countP (fun ch => ch.isDigit) ≤ 1 ∧
    (generatePassword c rand).countP (fun ch => pronSymbolTable.contains ch) ≤ 1 := by
  obtain ⟨ext, hg, hd1, hs1, hmem⟩ := generate_pron_structure c rand hp
  refine ⟨?_, ?_, ?_, ?_, ?_⟩
  · intro c' hp' hl hn hs
    simp only [generatePassword, hp, hp', if_true]
    rw [hl, hn, hs]
  · intro ch hch
    rw [hg] at hch
    have hch2 := List.mem_of_mem_take hch
    rcases List.mem_append.mp hch2 with h | h
    · rcases pronCore_mem _ _ ch h with hc | hc
      · exact ⟨Or.inl hc, (pronLetter_facts ch (List.mem_append_left _ hc)).2.1⟩
      · exact ⟨Or.inr (Or.inl hc), (pronLetter_facts ch (List.mem_append_right _ hc)).2.1⟩
    · obtain ⟨hda, hu⟩ := hmem ch h
      rcases hda with h1 | h1
      · exact ⟨Or.inr (Or.inr (Or.inl h1)), hu⟩
      · exact ⟨Or.inr (Or.inr (Or.inr h1)), hu⟩
  · intro i hi hhalf
    have hcl : (pronCore rand ((c.length + 1) / 2)).length = (c.length + 1) / 2 :=
      pronCore_length _ _
    have e1 : (generatePassword c rand).getD i ' '
        = (pronCore rand ((c.length + 1) / 2)).getD i ' ' := by
      rw [hg] at hi ⊢
      rw [List.getD_eq_getElem _ _ hi, List.getElem_take,
        List.getElem_append_left (by rw [hcl]; exact hhalf)]
      rw [List.getD_eq_getElem]
    rw [e1, pronCore_getD rand _ i hhalf]
    constructor
    · intro he
      rw [if_pos he]
      exact getD_mod_mem' consonantTable (rand i) 20 'b' (by decide) (by decide)
    · intro he
      rw [if_neg he]
      exact getD_mod_mem' vowelTable (rand i) 5 'a' (by decide) (by decide)
  · rw [hg]
    refine le_trans ((List.take_sublist _ _).countP_le _) ?_
    rw [List.countP_append, pronCore_countP_digit]
    omega
  · rw [hg]
    refine le_trans ((List.take_sublist _ _).countP_le _) ?_
    rw [List.countP_append, pronCore_countP_symbol]
    omega

theorem claim_C10_witness :
    ('b' ∈ consonantTable ∨ 'b' ∈ vowelTable ∨ Char.isDigit 'b' = true ∨ 'b' ∈ pronSymbolTable)
    ∧ Char.isUpper 'b' = false :=
  (claim_C10 ⟨6, true, true, true, true, false, true⟩ (fun _ => 0) rfl).2.1 'b' (by decide)

/-! ## Time formatting (`formatTime`) -/

/-- A JS number argument: NaN and the infinities have no counterpart in
`ℚ`, so they are explicit constructors. -/
inductive JSNum where
  | nan : JSNum
  | posInf : JSNum
  | negInf : JSNum
  | num : ℚ → JSNum

/-- `formatTime` on finite values (seconds), bucket by bucket. -/
def formatTime (seconds : ℚ) : String :=
  if seconds < 1/1000 then "Instantly"
  else if seconds < 1 then "Less than a second"
  else if seconds < 60 then toString (jsRound seconds) ++ " seconds"
  else if seconds < 3600 then toString (jsRound (seconds / 60)) ++ " minutes"
  else if seconds < 86400 then toString (jsRound (seconds / 3600)) ++ " hours"
  else if seconds < 604800 then toString (jsRound (seconds / 86400)) ++ " days"
  else if seconds < 2629746 then toString (jsRound (seconds / 604800)) ++ " weeks"
  else if seconds < 31556952 then toString (jsRound (seconds / 2629746)) ++ " months"
  else
    let years := seconds / 31556952
    if years < 10 then toString (jsRound years) ++ " years"
    else if years < 100 then toString (jsRound (years / 10) * 10) ++ " years"
    else if years < 1000 then toString (jsRound (years / 100) * 100) ++ " years"
    else if years < 10000 then toString (jsRound (years / 1000)) ++ "K years"
    else if years < 1000000 then toString (jsRound (years / 10000) * 10) ++ "K years"
    else "1M+ years"

/-- `formatTime` including the leading `isNaN(seconds) || !isFinite(seconds)`
check. -/
def formatTimeJS : JSNum → String
  | .num q => formatTime q
  | _ => "Virtually forever"

set_option maxRecDepth 10000 in
unseal Rat.add Rat.mul Rat.sub Rat.inv in
/-- C5 counterexample: 2,000 years (63,113,904,000 seconds) is rendered
"2K years" — a "K years" suffix below the claimed 10,000-year cutoff. -/
theorem claim_C5_counterexample :
    formatTime 63113904000 = "2K years" ∧
    (63113904000 : ℚ) / 31556952 < 10000 :=
  ⟨by decide, by decide⟩

set_option maxHeartbeats 2000000 in
/-- C5 (amended): the bucket map of `formatTime`, with the `K years`
suffix starting at 1,000 years (not 10,000): nearest-1000 rounding shows
`round(years/1000)K years` for 1,000-10,000 years, nearest-10,000
rounding shows `round(years/10000)*10K years` up to 1,000,000, then the
literal `1M+ years`; non-finite/NaN input gives "Virtually forever". -/
theorem claim_C5 (q : ℚ) :
    formatTimeJS .nan = "Virtually forever" ∧
    formatTimeJS .posInf = "Virtually forever" ∧
    formatTimeJS .negInf = "Virtually forever" ∧
    (q < 1/1000 → formatTime q = "Instantly") ∧
    (1/1000 ≤ q → q < 1 → formatTime q = "Less than a second") ∧
    (1 ≤ q → q < 60 → formatTime q = toString (jsRound q) ++ " seconds") ∧
    (60 ≤ q → q < 3600 → formatTime q = toString (jsRound (q / 60)) ++ " minutes") ∧
    (3600 ≤ q → q < 86400 → formatTime q = toString (jsRound (q / 3600)) ++ " hours") ∧
    (86400 ≤ q → q < 604800 → formatTime q = toString (jsRound (q / 86400)) ++ " days") ∧
    (604800 ≤ q → q < 2629746 →
      formatTime q = toString (jsRound (q / 604800)) ++ " weeks") ∧
    (2629746 ≤ q → q < 31556952 →
      formatTime q = toString (jsRound (q / 2629746)) ++ " months") ∧
    (31556952 ≤ q → q / 31556952 < 10 →
      formatTime q = toString (jsRound (q / 31556952)) ++ " years") ∧
    (10 ≤ q / 31556952 → q / 31556952 < 100 →
      formatTime q = toString (jsRound (q / 31556952 / 10) * 10) ++ " years") ∧
    (100 ≤ q / 31556952 → q / 31556952 < 1000 →
      formatTime q = toString (jsRound (q / 31556952 / 100) * 100) ++ " years") ∧
    (1000 ≤ q / 31556952 → q / 31556952 < 10000 →
      formatTime q = toString (jsRound (q / 31556952 / 1000)) ++ "K years") ∧
    (10000 ≤ q / 31556952 → q / 31556952 < 1000000 →
      formatTime q = toString (jsRound (q / 31556952 / 10000) * 10) ++ "K years") ∧
    (1000000 ≤ q / 31556952 → formatTime q = "1M+ years") := by
  refine ⟨rfl, rfl, rfl, ?_, ?_, ?_, ?_, ?_, ?_, ?_, ?_, ?_, ?_, ?_, ?_, ?_, ?_⟩
  · intros
    unfold formatTime
    dsimp only
    rw [if_pos (show q < 1/1000 by linarith)]
  · intros
    unfold formatTime
    dsimp only
    rw [if_neg (show ¬ (q < 1/1000) by linarith)]
    rw [if_pos (show q < 1 by linarith)]
  · intros
    unfold formatTime
    dsimp only
    rw [if_neg (show ¬ (q < 1/1000) by linarith)]
    rw [if_neg (show ¬ (q < 1) by linarith)]
    rw [if_pos (show q < 60 by linarith)]
  · intros
    unfold formatTime
    dsimp only
    rw [if_neg (show ¬ (q < 1/1000) by linarith)]
    rw [if_neg (show ¬ (q < 1) by linarith)]
    rw [if_neg (show ¬ (q < 60) by linarith)]
    rw [if_pos (show q < 3600 by linarith)]
  · intros
    unfold formatTime
    dsimp only
    rw [if_neg (show ¬ (q < 1/1000) by linarith)]
    rw [if_neg (show ¬ (q < 1) by linarith)]
    rw [if_neg (show ¬ (q < 60) by linarith)]
    rw [if_neg (show ¬ (q < 3600) by linarith)]
    rw [if_pos (show q < 86400 by linarith)]
  · intros
    unfold formatTime
    dsimp only
    rw [if_neg (show ¬ (q < 1/1000) by linarith)]
    rw [if_neg (show ¬ (q < 1) by linarith)]
    rw [if_neg (show ¬ (q < 60) by linarith)]
    rw [if_neg (show ¬ (q < 3600) by linarith)]
    rw [if_neg (show ¬ (q < 86400) by linarith)]
    rw [if_pos (show q < 604800 by linarith)]
  · intros
    unfold formatTime
    dsimp only
    rw [if_neg (show ¬ (q < 1/1000) by linarith)]
    rw [if_neg (show ¬ (q < 1) by linarith)]
    rw [if_neg (show ¬ (q < 60) by linarith)]
    rw [if_neg (show ¬ (q < 3600) by linarith)]
    rw [if_neg (show ¬ (q < 86400) by linarith)]
    rw [if_neg (show ¬ (q < 604800) by linarith)]
    rw [if_pos (show q < 2629746 by linarith)]
  · intros
    unfold formatTime
    dsimp only
    rw [if_neg (show ¬ (q < 1/1000) by linarith)]
    rw [if_neg (show ¬ (q < 1) by linarith)]
    rw [if_neg (show ¬ (q < 60) by linarith)]
    rw [if_neg (show ¬ (q < 3600) by linarith)]
    rw [if_neg (show ¬ (q < 86400) by linarith)]
    rw [if_neg (show ¬ (q < 604800) by linarith)]
    rw [if_neg (show ¬ (q < 2629746) by linarith)]
    rw [if_pos (show q < 31556952 by linarith)]
  · intros
    unfold formatTime
    dsimp only
    rw [if_neg (show ¬ (q < 1/1000) by linarith)]
    rw [if_neg (show ¬ (q < 1) by linarith)]
    rw [if_neg (show ¬ (q < 60) by linarith)]
    rw [if_neg (show ¬ (q < 3600) by linarith)]
    rw [if_neg (show ¬ (q < 86400) by linarith)]
    rw [if_neg (show ¬ (q < 604800) by linarith)]
    rw [if_neg (show ¬ (q < 2629746) by linarith)]
    rw [if_neg (show ¬ (q < 31556952) by linarith)]
    rw [if_pos (show q / 31556952 < 10 by linarith)]
  · intros
    unfold formatTime
    dsimp only
    rw [if_neg (show ¬ (q < 1/1000) by linarith)]
    rw [if_neg (show ¬ (q < 1) by linarith)]
    rw [if_neg (show ¬ (q < 60) by linarith)]
    rw [if_neg (show ¬ (q < 3600) by linarith)]
    rw [if_neg (show ¬ (q < 86400) by linarith)]
    rw [if_neg (show ¬ (q < 604800) by linarith)]
    rw [if_neg (show ¬ (q < 2629746) by linarith)]
    rw [if_neg (show ¬ (q < 31556952) by linarith)]
    rw [if_neg (show ¬ (q / 31556952 < 10) by linarith)]
    rw [if_pos (show q / 31556952 < 100 by linarith)]
  · intros
    unfold formatTime
    dsimp only
    rw [if_neg (show ¬ (q < 1/1000) by linarith)]
    rw [if_neg (show ¬ (q < 1) by linarith)]
    rw [if_neg (show ¬ (q < 60) by linarith)]
    rw [if_neg (show ¬ (q < 3600) by linarith)]
    rw [if_neg (show ¬ (q < 86400) by linarith)]
    rw [if_neg (show ¬ (q < 604800) by linarith)]
    rw [if_neg (show ¬ (q < 2629746) by linarith)]
    rw [if_neg (show ¬ (q < 31556952) by linarith)]
    rw [if_neg (show ¬ (q / 31556952 < 10) by linarith)]
    rw [if_neg (show ¬ (q / 31556952 < 100) by linarith)]
    rw [if_pos (show q / 31556952 < 1000 by linarith)]
  · intros
    unfold formatTime
    dsimp only
    rw [if_neg (show ¬ (q < 1/1000) by linarith)]
    rw [if_neg (show ¬ (q < 1) by linarith)]
    rw [if_neg (show ¬ (q < 60) by linarith)]
    rw [if_neg (show ¬ (q < 3600) by linarith)]
    rw [if_neg (show ¬ (q < 86400) by linarith)]
    rw [if_neg (show ¬ (q < 604800) by linarith)]
    rw [if_neg (show ¬ (q < 2629746) by linarith)]
    rw [if_neg (show ¬ (q < 31556952) by linarith)]
    rw [if_neg (show ¬ (q / 31556952 < 10) by linarith)]
    rw [if_neg (show ¬ (q / 31556952 < 100) by linarith)]
    rw [if_neg (show ¬ (q / 31556952 < 1000) by linarith)]
    rw [if_pos (show q / 31556952 < 10000 by linarith)]
  · intros
    unfold formatTime
    dsimp only
    rw [if_neg (show ¬ (q < 1/1000) by linarith)]
    rw [if_neg (show ¬ (q < 1) by linarith)]
    rw [if_neg (show ¬ (q < 60) by linarith)]
    rw [if_neg (show ¬ (q < 3600) by linarith)]
    rw [if_neg (show ¬ (q < 86400) by linarith)]
    rw [if_neg (show ¬ (q < 604800) by linarith)]
    rw [if_neg (show ¬ (q < 2629746) by linarith)]
    rw [if_neg (show ¬ (q < 31556952) by linarith)]
    rw [if_neg (show ¬ (q / 31556952 < 10) by linarith)]
    rw [if_neg (show ¬ (q / 31556952 < 100) by linarith)]
    rw [if_neg (show ¬ (q / 31556952 < 1000) by linarith)]
    rw [if_neg (show ¬ (q / 31556952 < 10000) by linarith)]
    rw [if_pos (show q / 31556952 < 1000000 by linarith)]
  · intros
    unfold formatTime
    dsimp only
    rw [if_neg (show ¬ (q < 1/1000) by linarith)]
    rw [if_neg (show ¬ (q < 1) by linarith)]
    rw [if_neg (show ¬ (q < 60) by linarith)]
    rw [if_neg (show ¬ (q < 3600) by linarith)]
    rw [if_neg (show ¬ (q < 86400) by linarith)]
    rw [if_neg (show ¬ (q < 604800) by linarith)]
    rw [if_neg (show ¬ (q < 2629746) by linarith)]
    rw [if_neg (show ¬ (q < 31556952) by linarith)]
    rw [if_neg (show ¬ (q / 31556952 < 10) by linarith)]
    rw [if_neg (show ¬ (q / 31556952 < 100) by linarith)]
    rw [if_neg (show ¬ (q / 31556952 < 1000) by linarith)]
    rw [if_neg (show ¬ (q / 31556952 < 10000) by linarith)]
    rw [if_neg (show ¬ (q / 31556952 < 1000000) by linarith)]

set_option maxRecDepth 10000 in
unseal Rat.add Rat.mul Rat.sub Rat.inv in
theorem claim_C5_witness : formatTime 30 = "30 seconds" := by
  have h := (claim_C5 30).2.2.2.2.2.1 (by norm_num) (by norm_num)
  exact h.trans (by decide)

/-! ## Crack-time estimator -/

/-- A crack-time value: either a plain number of seconds (the common
short-circuit constants) or the exact real `2 ^ e * m` (the general
path's `combinations / rate * adjustmentFactor`, with
`m = adjustmentFactor / rate`). -/
inductive TimeVal where
  | rat : ℚ → TimeVal
  | pow2 : ℚ → ℚ → TimeVal

/-- The real number of seconds a `TimeVal` denotes. -/
noncomputable def TimeVal.toReal : TimeVal → ℝ
  | .rat q => (q : ℝ)
  | .pow2 e m => (2 : ℝ) ^ (e : ℝ) * (m : ℝ)

structure CrackTimes where
  online : TimeVal
  offline : TimeVal
  optimized : TimeVal

/-- The general path's effective entropy:
`min(entropy * (0.7 + 0.3*score/100) * lengthFactor, 100)`. -/
def effectiveEntropy (entropy score : ℚ) (pwd : List Char) : ℚ :=
  let scoreFrac := score / 100
  let lengthFactor : ℚ := if pwd.length ≤ 20 then 1 else 4/5
  min (entropy * (7/10 + 3/10 * scoreFrac) * lengthFactor) 100

/-- The general path's multiplicative adjustment factor, floored at
0.05. -/
def crackAdjustmentFactor (pwd : List Char) : ℚ :=
  let f1 : ℚ := if containsKeyboardPattern pwd then 3/10 else 1
  let seq := containsSequentialPattern pwd
  let f2 : ℚ :=
    if seq ≠ "" then 2/5 + 3/10 * (1 - (seq.length : ℚ) / pwd.length) else 1
  let f3 : ℚ :=
    if lettersThenDigits pwd then
      (if isLikelyCommonPassword (stripTrailingDigits pwd) then 3/20 else 1/2)
    else 1
  let f4 : ℚ :=
    if anyUpper pwd ∧ anyLower pwd ∧ anyDigit pwd ∧ anySymbol pwd then
      (if capitalFormula pwd then 3/5 else 6/5)
    else 1
  let f5 : ℚ := if 16 ≤ pwd.length then 13/10 else if pwd.length ≤ 8 then 1/2 else 1
  max (1/20) (f1 * f2 * f3 * f4 * f5)

/-- `calculateTimeToCrack(entropy, isCommon, score, pwd)`.  The common
path short-circuits to near-zero constants; the general path computes
`combinations = 2^effectiveEntropy` and one adjustment factor, dividing
the same combination count by the three guess rates (online 1e3/s,
offline 1e9/s, optimized 5e10/s).  (`getCharsetSize(pwd)` is called for
informational purposes only and discarded; it is omitted here.) -/
def calculateTimeToCrack (entropy : ℚ) (isCommon : Bool) (score : ℚ)
    (pwd : List Char) : CrackTimes :=
  if isCommon then
    { online := .rat (1/1000), offline := .rat (1/10000), optimized := .rat (1/100000) }
  else
    { online := .pow2 (effectiveEntropy entropy score pwd) (crackAdjustmentFactor pwd / 1000),
      offline := .pow2 (effectiveEntropy entropy score pwd) (crackAdjustmentFactor pwd / 1000000000),
      optimized := .pow2 (effectiveEntropy entropy score pwd) (crackAdjustmentFactor pwd / 50000000000) }

theorem crackAdjustmentFactor_nonneg (pwd : List Char) :
    0 ≤ crackAdjustmentFactor pwd :=
  le_trans (by norm_num) (le_max_left _ _)

theorem pow2_div_rate_le (e a r1 r2 : ℚ) (ha : 0 ≤ a) (h0 : 0 < r1) (hr : r1 ≤ r2) :
    TimeVal.toReal (.pow2 e (a / r2)) ≤ TimeVal.toReal (.pow2 e (a / r1)) := by
  dsimp only [TimeVal.toReal]
  have hp : (0 : ℝ) ≤ (2 : ℝ) ^ ((e : ℚ) : ℝ) :=
    le_of_lt (Real.rpow_pos_of_pos (by norm_num) _)
  refine mul_le_mul_of_nonneg_left ?_ hp
  have ha' : (0 : ℝ) ≤ (a : ℝ) := by exact_mod_cast ha
  have h0' : (0 : ℝ) < (r1 : ℝ) := by exact_mod_cast h0
  have hr' : (r1 : ℝ) ≤ (r2 : ℝ) := by exact_mod_cast hr
  have h2' : (0 : ℝ) < (r2 : ℝ) := lt_of_lt_of_le h0' hr'
  rw [show ((a / r2 : ℚ) : ℝ) = (a : ℝ) / (r2 : ℝ) by push_cast; ring,
    show ((a / r1 : ℚ) : ℝ) = (a : ℝ) / (r1 : ℝ) by push_cast; ring,
    div_le_div_iff h2' h0']
  exact mul_le_mul_of_nonneg_left hr' ha'

/-- C9: the three crack-time estimates are always ordered
`online ≥ offline ≥ optimized`, on the common short-circuit path and on
the general path, where the three rates divide the same
`2^effectiveEntropy` combination count scaled by the same adjustment
factor. -/
theorem claim_C9 (entropy : ℚ) (isCommon : Bool) (score : ℚ) (pwd : List Char) :
    (calculateTimeToCrack entropy isCommon score pwd).offline.toReal
      ≤ (calculateTimeToCrack entropy isCommon score pwd).online.toReal
    ∧ (calculateTimeToCrack entropy isCommon score pwd).optimized.toReal
      ≤ (calculateTimeToCrack entropy isCommon score pwd).offline.toReal := by
  unfold calculateTimeToCrack
  split_ifs with hc
  · constructor <;>
      · dsimp only [TimeVal.toReal]
        norm_num
  · constructor <;>
      · dsimp only
        exact pow2_div_rate_le _ _ _ _ (crackAdjustmentFactor_nonneg pwd)
          (by norm_num) (by norm_num)
